import Mathlib

set_option maxRecDepth 20000

/-!
Verification of the conversational agent engine of this repository: the
graph router, the tool-dispatch step, the checkpoint store, the executor
loop, and the deck-layout templater. Definitions are shallow embeddings of
the corresponding Python source; components whose implementation lives in
an external library (langgraph internals) are modelled from the written
specification and marked as such in their doc comments.
-/

namespace ILab

/-- Role of a chat message (langchain message classes: HumanMessage,
AIMessage, ToolMessage, plus the raw role strings used by the OpenAI
notebook). -/
inductive Role where
  | user
  | assistant
  | tool
  | system
deriving DecidableEq, Repr

/-- A tool call carried by an assistant message (langchain ToolCall:
id, name, and the raw argument payload). -/
structure ToolCall where
  id : String
  name : String
  args : String
deriving DecidableEq, Repr

/-- A chat message as held in langgraph MessagesState. The tool_calls
field is an Option because only AIMessage instances carry the attribute:
accessing last_message.tool_calls on a HumanMessage or ToolMessage raises
AttributeError, which the embedding renders as the none case.
tool_call_id is the back-reference carried by a ToolMessage. -/
structure Message where
  role : Role
  content : String
  tool_calls : Option (List ToolCall)
  tool_call_id : Option String
deriving DecidableEq, Repr

/-- langgraph MessagesState: the record {messages: [...]} threaded
through the graph. -/
structure MessagesState where
  messages : List Message
deriving DecidableEq, Repr

/-- Routing result of the conditional edge: a node id or the END
sentinel of langgraph. -/
inductive Route where
  | toNode (id : String)
  | terminal
deriving DecidableEq, Repr

/-- The ways should_continue can raise at runtime: messages[-1] on an
empty list raises IndexError, and .tool_calls on a message without that
attribute raises AttributeError. -/
inductive RouterErr where
  | emptyMessages
  | missingToolCallsAttr
deriving DecidableEq, Repr

/-- Embedding of should_continue from the langgraph notebook:
messages = state[ -- messages -- ]; last_message = messages[-1];
if last_message.tool_calls: return "tools"; return END.
Python truthiness of a list is its non-emptiness. -/
def should_continue (state : MessagesState) : Except RouterErr Route :=
  match state.messages.getLast? with
  | none => .error .emptyMessages
  | some last_message =>
    match last_message.tool_calls with
    | none => .error .missingToolCallsAttr
    | some tcs => if tcs.isEmpty then .ok .terminal else .ok (.toNode "tools")

/-- Embedding of call_model from the langgraph notebook: invoke the
model on the current messages and return the singleton list of new
messages to append ({"messages": [response]}); the external reasoning
component is the function argument. -/
def call_model (model : List Message → Message) (state : MessagesState) :
    List Message :=
  [model state.messages]

/-- Default tool call, used only as the out-of-range default of getD in
the scheduled dispatch model (never reached under the stated bounds). -/
def tcDefault : ToolCall := { id := "", name := "", args := "" }

/-- Modelled from the spec: execution of one ToolCall by the prebuilt
langgraph ToolNode (library code missing from src). The named capability
is looked up in the tool registry and invoked on the call's arguments; an
unknown tool name produces a ToolResult whose content is an error
description instead of raising. The result is a tool message carrying the
originating call's id. -/
def execToolCall (registry : List (String × (String → String)))
    (tc : ToolCall) : Message :=
  match registry.find? (fun p => p.1 == tc.name) with
  | some p =>
      { role := .tool, content := p.2 tc.args,
        tool_calls := none, tool_call_id := some tc.id }
  | none =>
      { role := .tool,
        content := "Error: " ++ tc.name ++ " is not a valid tool.",
        tool_calls := none, tool_call_id := some tc.id }

/-- Failure modes of the Tool Node step (spec: the step fails as a whole
only on a caller contract violation, i.e. the last message has no
ToolCalls, or if reassembly would commit a partial result set). -/
inductive ToolErr where
  | noLastMessage
  | noToolCallsAttr
  | noToolCalls
  | incompleteResults
deriving DecidableEq, Repr

/-- Completion events of a concurrent dispatch: executing the calls in
the physical finish order ord yields, for each finished index, the pair
of the index and its result. -/
def dispatchEvents (f : Nat → Message) (ord : List Nat) :
    List (Nat × Message) :=
  ord.map (fun i => (i, f i))

/-- First completion event recorded for index i, if any. -/
def lookupIdx (i : Nat) (ps : List (Nat × Message)) : Option Message :=
  (ps.find? (fun p => p.1 == i)).map (fun p => p.2)

/-- Collect a list of optional results, failing if any is missing. -/
def collectSome : List (Option Message) → Option (List Message)
  | [] => some []
  | none :: _ => none
  | some m :: rest => (collectSome rest).map (fun l => m :: l)

/-- Modelled from the spec: reassembly of concurrently produced
ToolResults in the original ToolCall order; a partial set of results is
never committed. -/
def reassemble (n : Nat) (ps : List (Nat × Message)) :
    Option (List Message) :=
  collectSome ((List.range n).map (fun i => lookupIdx i ps))

/-- Modelled from the spec: the prebuilt langgraph ToolNode (library code
missing from src), with the physical completion order of the concurrent
tool calls made explicit as the index list ord. Every pending ToolCall of
the last message is dispatched; the results are reassembled in the
original ToolCall order before being appended. -/
def toolNodeSched (registry : List (String × (String → String)))
    (state : MessagesState) (ord : List Nat) : Except ToolErr (List Message) :=
  match state.messages.getLast? with
  | none => .error .noLastMessage
  | some last =>
    match last.tool_calls with
    | none => .error .noToolCallsAttr
    | some tcs =>
      if tcs.isEmpty then .error .noToolCalls
      else
        match reassemble tcs.length
            (dispatchEvents
              (fun i => execToolCall registry (tcs.getD i tcDefault)) ord) with
        | none => .error .incompleteResults
        | some out => .ok out

/-- Modelled from the spec: the prebuilt langgraph ToolNode with the
canonical in-order completion schedule. -/
def tool_node (registry : List (String × (String → String)))
    (state : MessagesState) : Except ToolErr (List Message) :=
  match state.messages.getLast? with
  | none => .error .noLastMessage
  | some last =>
    match last.tool_calls with
    | none => .error .noToolCallsAttr
    | some tcs =>
      if tcs.isEmpty then .error .noToolCalls
      else .ok (tcs.map (execToolCall registry))

/-- Modelled from the spec: the checkpoint store (langgraph MemorySaver,
library code missing from src) as a thread-id-keyed association list;
put durably stores/overwrites the snapshot for a thread. -/
def putCk (store : List (String × MessagesState)) (t : String)
    (s : MessagesState) : List (String × MessagesState) :=
  (t, s) :: store.filter (fun p => !(p.1 == t))

/-- Modelled from the spec: get returns the latest snapshot for a thread
or none as the NotFound signal. -/
def getCk (store : List (String × MessagesState)) (t : String) :
    Option MessagesState :=
  (store.find? (fun p => p.1 == t)).map (fun p => p.2)

/-- The registered nodes of this graph topology: workflow.add_node
installs "agent" (call_model) and "tools" (tool_node). -/
inductive GNode where
  | agent
  | tools
deriving DecidableEq, Repr

/-- Errors that abort the executor loop. -/
inductive ExecErr where
  | routerFailure (e : RouterErr)
  | toolFailure (e : ToolErr)
  | unknownNode (id : String)
  | stepLimitExceeded
deriving DecidableEq, Repr

/-- Outcome of one executor step: continue at a node, or halt (the
Router returned the END sentinel). -/
inductive StepNext where
  | cont (n : GNode)
  | halt
deriving DecidableEq, Repr

/-- Modelled from the spec: one step of the compiled graph executor
(langgraph library code missing from src). Runs the current node's
executor, appends its output messages, and determines the next state via
the agent node's conditional edge (should_continue) or the static edge
tools -> agent (workflow.add_edge). -/
def stepOnce (model : List Message → Message)
    (registry : List (String × (String → String)))
    (node : GNode) (msgs : List Message) :
    Except ExecErr (StepNext × List Message) :=
  match node with
  | .agent =>
    match should_continue ⟨msgs ++ call_model model ⟨msgs⟩⟩ with
    | .error e => .error (.routerFailure e)
    | .ok .terminal => .ok (.halt, msgs ++ call_model model ⟨msgs⟩)
    | .ok (.toNode id) =>
        if id == "tools" then .ok (.cont .tools, msgs ++ call_model model ⟨msgs⟩)
        else .error (.unknownNode id)
  | .tools =>
    match tool_node registry ⟨msgs⟩ with
    | .error e => .error (.toolFailure e)
    | .ok results => .ok (.cont .agent, msgs ++ results)

/-- Modelled from the spec: the executor loop of the compiled graph
(langgraph library code missing from src). Repeats stepOnce from the
current node until the Router halts the run or the step-count ceiling is
exceeded; returns the final message list and the number of completed
steps. -/
def runLoop (model : List Message → Message)
    (registry : List (String × (String → String)))
    (fuel : Nat) (node : GNode) (msgs : List Message) (steps : Nat) :
    Except ExecErr (List Message × Nat) :=
  match fuel with
  | 0 => .error .stepLimitExceeded
  | fuel' + 1 =>
    match stepOnce model registry node msgs with
    | .error e => .error e
    | .ok (.halt, out) => .ok (out, steps + 1)
    | .ok (.cont next, out) => runLoop model registry fuel' next out (steps + 1)

/-- Modelled from the spec: the run invocation surface (app.invoke with a
configurable thread id). If the checkpoint store holds a snapshot for the
thread, the run resumes from it at the entry node "agent"
(workflow.set_entry_point); otherwise a fresh conversation state is
started from the caller-supplied initial user message. -/
def start_or_resume (model : List Message → Message)
    (registry : List (String × (String → String)))
    (store : List (String × MessagesState)) (t : String)
    (initialUser : Message) (cap : Nat) : Except ExecErr (List Message × Nat) :=
  match getCk store t with
  | some s => runLoop model registry cap .agent s.messages 0
  | none => runLoop model registry cap .agent [initialUser] 0

/-- OpenAI notebook: the Function payload of a tool call (name plus the
raw JSON argument string). -/
structure OAFunction where
  name : String
  arguments : String
deriving DecidableEq, Repr

/-- OpenAI notebook: a ChatCompletionMessageToolCall. -/
structure OAToolCall where
  id : String
  function : OAFunction
deriving DecidableEq, Repr

/-- OpenAI notebook: a chat message dict as appended by the dispatch
loop ({"role": ..., "name": ..., "content": ...}). -/
structure OAMessage where
  role : String
  name : Option String
  content : String
deriving DecidableEq, Repr

/-- An uncaught exception aborting the OpenAI notebook dispatch loop:
json.loads raises json.JSONDecodeError on an unparsable payload and
nothing in the loop catches it. -/
inductive OAAbort where
  | jsonDecodeError (msg : String)
deriving DecidableEq, Repr

/-- A parsed JSON argument object, concretized to string-valued fields
as used by the notebook's single tool. -/
def OAArgs : Type := List (String × String)

/-- Embedding of the tool-calls dispatch loop of the OpenAI function
calling notebook: for each tool_call, function_args =
json.loads(tool_call.function.arguments); then, only if function_name is
a key of available_functions, the function is invoked and a
role="function" message with its response is appended to messages. The
external json.loads is the function argument json_loads; a parse failure
propagates as an uncaught exception. A name missing from
available_functions makes the loop body append nothing for that call. -/
def dispatch_tool_calls
    (json_loads : String → Except String OAArgs)
    (available_functions : List (String × (OAArgs → String)))
    (messages : List OAMessage) :
    List OAToolCall → Except OAAbort (List OAMessage)
  | [] => .ok messages
  | tool_call :: rest =>
    match json_loads tool_call.function.arguments with
    | .error e => .error (.jsonDecodeError e)
    | .ok function_args =>
      match available_functions.find?
          (fun p => p.1 == tool_call.function.name) with
      | some p =>
          dispatch_tool_calls json_loads available_functions
            (messages ++
              [{ role := "function", name := some tool_call.function.name,
                 content := p.2 function_args }]) rest
      | none =>
          dispatch_tool_calls json_loads available_functions messages rest

/-- Deck config: one labware entry ({"type": ..., optional
"parent_module": ...}). -/
structure Labware where
  type : String
  parent_module : Option String
deriving DecidableEq, Repr

/-- Deck config: one module entry ({"type": ..., "location": [...]}). -/
structure ModuleInfo where
  type : String
  location : List String
deriving DecidableEq, Repr

/-- Deck config: one pipette entry ({"type": ..., "tip_racks": [...]}). -/
structure Pipette where
  type : String
  tip_racks : List String
deriving DecidableEq, Repr

/-- The parsed JSON deck configuration consumed by initialize_deck.
Top-level sections are Options: none models the key being absent from
the dict, so that config[key] raises KeyError. Dicts keep insertion
order as association lists. -/
structure DeckCfg where
  api_version : Option String
  pipettes : Option (List (String × Pipette))
  modules : Option (List (String × ModuleInfo))
  labware : Option (List (String × Labware))
deriving DecidableEq, Repr

/-- A Python exception escaping initialize_deck. -/
inductive PyErr where
  | keyError (key : String)
  | indexError
deriving DecidableEq, Repr

/-- Python dict lookup d[k] on a string-keyed dict, as an Option. -/
def dictGet {α : Type} (d : List (String × α)) (k : String) : Option α :=
  (d.find? (fun p => p.1 == k)).map (fun p => p.2)

/-- Python dict access config[k]: KeyError when the key is absent. -/
def require {α : Type} (o : Option α) (k : String) : Except PyErr α :=
  match o with
  | some v => .ok v
  | none => .error (.keyError k)

/-- A Python single-quoted string literal around s, as produced by the
f-strings of initialize_deck. -/
def q (s : String) : String := "\x27" ++ s ++ "\x27"

/-- The tip_racks list comprehension of initialize_deck: for each rack
label, evaluates config[\x22labware\x22][rack][\x22type\x22]; the labware
section itself is looked up lazily inside the comprehension body, so the
comprehension only raises KeyError "labware" when at least one rack is
iterated. -/
def tipRackCode (labwareOpt : Option (List (String × Labware))) :
    List String → Except PyErr (List String)
  | [] => .ok []
  | rack :: rest =>
    match labwareOpt with
    | none => .error (.keyError "labware")
    | some lwDict =>
      match dictGet lwDict rack with
      | none => .error (.keyError rack)
      | some lw =>
        match tipRackCode labwareOpt rest with
        | .error e => .error e
        | .ok tail =>
          .ok (("protocol.load_labware(" ++ q lw.type ++ ", " ++ q rack ++ ")")
            :: tail)

/-- The pipette loop of initialize_deck: one load_instrument line per
mount, with the tip rack loads joined by ", ". -/
def pipetteCode (labwareOpt : Option (List (String × Labware))) :
    List (String × Pipette) → Except PyErr (List String)
  | [] => .ok []
  | (mount, pipette) :: rest =>
    match tipRackCode labwareOpt pipette.tip_racks with
    | .error e => .error e
    | .ok tip_racks =>
      match pipetteCode labwareOpt rest with
      | .error e => .error e
      | .ok tail =>
        .ok (("    " ++ mount ++ "_pipette = protocol.load_instrument("
          ++ q pipette.type ++ ", " ++ q mount ++ ", tip_racks=["
          ++ String.intercalate ", " tip_racks ++ "])") :: tail)

/-- The module loop of initialize_deck: module_info[\x22location\x22][0]
raises IndexError when the location list is empty. -/
def moduleCode : List (String × ModuleInfo) → Except PyErr (List String)
  | [] => .ok []
  | (module_name, module_info) :: rest =>
    match module_info.location.head? with
    | none => .error .indexError
    | some loc0 =>
      match moduleCode rest with
      | .error e => .error e
      | .ok tail =>
        .ok (("    " ++ module_name ++ " = protocol.load_module("
          ++ q module_info.type ++ ", " ++ q loc0 ++ ")") :: tail)

/-- The labware loop of initialize_deck: the assignment target is the
slot key with the suffix _labware; a labware entry with a parent_module
is loaded from that module instead of the protocol. -/
def labwareCode : List (String × Labware) → List String
  | [] => []
  | (slot, labware) :: rest =>
    (match labware.parent_module with
     | some pm =>
        "    " ++ slot ++ "_labware = " ++ pm ++ ".load_labware("
          ++ q labware.type ++ ")"
     | none =>
        "    " ++ slot ++ "_labware = protocol.load_labware("
          ++ q labware.type ++ ", " ++ q slot ++ ")") :: labwareCode rest

/-- The three header lines of the generated script, including the
metadata line built from config[\x22api_version\x22]. -/
def headerLines (apiV : String) : List String :=
  ["from opentrons import protocol_api",
   "\nmetadata = \x7b" ++ q "apiLevel" ++ ": " ++ q apiV ++ "\x7d",
   "\ndef run(protocol: protocol_api.ProtocolContext):"]

/-- Embedding of initialize_deck from the langchain notebooks (the body
after config = json.loads(...), reading the config file and parsing it
being external I/O performed first). Evaluation order follows the
source: the metadata f-string reads api_version, the pipette loop reads
pipettes (and labware lazily, per rack), the module loop reads modules
with a default of the empty dict, and the labware loop reads labware.
The generated lines are joined with newlines. -/
def initialize_deck (config : DeckCfg) : Except PyErr String :=
  match config.api_version with
  | none => .error (.keyError "api_version")
  | some apiV =>
    match config.pipettes with
    | none => .error (.keyError "pipettes")
    | some pips =>
      match pipetteCode config.labware pips with
      | .error e => .error e
      | .ok pipLines =>
        match moduleCode (config.modules.getD []) with
        | .error e => .error e
        | .ok modLines =>
          match config.labware with
          | none => .error (.keyError "labware")
          | some lwDict =>
            .ok (String.intercalate "\n"
              (headerLines apiV ++ pipLines ++ modLines ++ labwareCode lwDict))

/-- The opentrons_config.json deck configuration recorded in the
read-structured-deck-layout notebook output. -/
def opentronsConfig : DeckCfg :=
  { api_version := some "2.17",
    pipettes := some
      [("left", { type := "p300_single_gen2", tip_racks := ["1"] }),
       ("right", { type := "p20_multi_gen2", tip_racks := ["2"] })],
    modules := some
      [("thermocycler",
        { type := "thermocyclerModuleV2", location := ["7"] })],
    labware := some
      [("1", { type := "opentrons_96_tiprack_300ul", parent_module := none }),
       ("2", { type := "opentrons_96_tiprack_20ul", parent_module := none }),
       ("3", { type := "corning_96_wellplate_360ul_flat", parent_module := none }),
       ("5", { type := "nest_12_reservoir_15ml", parent_module := none }),
       ("7", { type := "nest_96_wellplate_100ul_pcr_full_skirt",
               parent_module := some "thermocycler" })] }

/-- A deck configuration missing the labware section whose single
module entry has an empty location list. -/
def badModulesCfg : DeckCfg :=
  { api_version := some "2.17", pipettes := some [],
    modules := some
      [("magnetic", { type := "magneticModuleV2", location := [] })],
    labware := none }

/-- A pipette whose tip_racks name slot "9", absent from the labware
section of opentronsConfig. -/
def badPipette : Pipette := { type := "p300_single_gen2", tip_racks := ["9"] }

/-- opentronsConfig with its pipettes replaced by one referencing the
missing slot "9". -/
def badRackCfg : DeckCfg :=
  { opentronsConfig with pipettes := some [("left", badPipette)] }

/-- Start character of a Python identifier (ASCII fragment of the
Python lexical grammar: a letter or an underscore). -/
def isIdentStart (c : Char) : Bool := c.isAlpha || c == '_'

/-- Continuation character of a Python identifier (ASCII fragment: a
letter, a digit, or an underscore). -/
def isIdentChar (c : Char) : Bool := c.isAlphanum || c == '_'

/-- Whether s is a valid Python identifier (ASCII fragment of the
Python lexical grammar). -/
def isValidPythonIdent (s : String) : Bool :=
  match s.data with
  | [] => false
  | c :: rest => isIdentStart c && rest.all isIdentChar

/-- Whether pat occurs at the start of s (on character lists). -/
def startsWithList : List Char → List Char → Bool
  | [], _ => true
  | _ :: _, [] => false
  | p :: ps, c :: cs => p == c && startsWithList ps cs

/-- Whether pat occurs anywhere in s (on character lists). -/
def hasSubList (pat : List Char) : List Char → Bool
  | [] => startsWithList pat []
  | c :: cs => startsWithList pat (c :: cs) || hasSubList pat cs

/-- Whether the string pat occurs as a contiguous substring of s. -/
def strContains (s pat : String) : Bool := hasSubList pat.data s.data

/-- Default message (out-of-range default for getD in indexed statements). -/
def msgDefault : Message :=
  { role := .tool, content := "", tool_calls := none, tool_call_id := none }

/-- Example user message (no tool_calls attribute, as on HumanMessage). -/
def userMsgEx : Message :=
  { role := .user, content := "How do I blow out liquid?",
    tool_calls := none, tool_call_id := none }

/-- Example assistant message with an empty tool_calls list. -/
def aiMsgNoCall : Message :=
  { role := .assistant, content := "Use blow_out().",
    tool_calls := some [], tool_call_id := none }

/-- Example tool call for the retriever tool. -/
def tcEx : ToolCall :=
  { id := "call_9", name := "search_opentrons_docs", args := "blow out" }

/-- Second example tool call. -/
def tcEx2 : ToolCall :=
  { id := "call_10", name := "search_opentrons_docs", args := "thermocycler" }

/-- Example assistant message carrying one tool call. -/
def aiMsgOneCall : Message :=
  { role := .assistant, content := "", tool_calls := some [tcEx],
    tool_call_id := none }

/-- Example assistant message carrying two tool calls. -/
def aiMsgTwoCalls : Message :=
  { role := .assistant, content := "", tool_calls := some [tcEx, tcEx2],
    tool_call_id := none }

/-- Example tool registry holding the retriever tool. -/
def regEx : List (String × (String → String)) :=
  [("search_opentrons_docs", fun args => "docs for: " ++ args)]

/-- Example available_functions mapping of the OpenAI notebook: only
generate_opentrons_code is registered. -/
def availEx : List (String × (OAArgs → String)) :=
  [("generate_opentrons_code", fun _ => "generated code")]

/-- A json.loads stand-in on which every payload parses (to the empty
object). -/
def parseOkEx : String → Except String OAArgs := fun _ => .ok []

/-- A json.loads stand-in on which every payload fails to parse, with
the message json.loads raises on a non-JSON string. -/
def parseFailEx : String → Except String OAArgs :=
  fun _ => .error "Expecting value: line 1 column 1 (char 0)"

/-- A tool call whose name is not registered in available_functions. -/
def tcUnknown : OAToolCall :=
  { id := "call_u", function := { name := "get_weather", arguments := "\x7b\x7d" } }

/-- A tool call whose argument payload is not valid JSON. -/
def tcMalformed : OAToolCall :=
  { id := "call_m",
    function := { name := "generate_opentrons_code", arguments := "not json" } }

end ILab

namespace ILab

/-- C1: the Router is a pure, deterministic function of the state's last
message: when the last message is an assistant message carrying at least
one ToolCall it returns the Tool Node id "tools", when it carries zero
ToolCalls it returns the END sentinel, and its value depends only on the
last message. -/
theorem router_pure_decision (s : MessagesState) (last : Message)
    (tcs : List ToolCall)
    (hlast : s.messages.getLast? = some last)
    (hrole : last.role = Role.assistant)
    (hattr : last.tool_calls = some tcs) :
    (tcs ≠ [] → should_continue s = .ok (Route.toNode "tools")) ∧
    (tcs = [] → should_continue s = .ok Route.terminal) ∧
    (∀ s' : MessagesState, s'.messages.getLast? = s.messages.getLast? →
      should_continue s' = should_continue s) := by
  refine ⟨?_, ?_, ?_⟩
  · intro h
    simp [should_continue, hlast, hattr, h]
  · intro h
    subst h
    simp [should_continue, hlast, hattr]
  · intro s' h
    unfold should_continue
    rw [h]

/-- C1 witness: on a concrete state ending in an assistant message with
one tool call, the Router returns "tools". -/
theorem router_pure_decision_witness :
    should_continue ⟨[userMsgEx, aiMsgOneCall]⟩ = .ok (Route.toNode "tools") :=
  (router_pure_decision ⟨[userMsgEx, aiMsgOneCall]⟩ aiMsgOneCall [tcEx]
    rfl rfl rfl).1 (by simp)

/-- C9: the Router is partial at the public interface: on an empty
message list it fails (messages[-1] raises), on a last message without
the tool_calls attribute it fails (the attribute is read without a role
check), and it is total whenever the last message exists and carries the
tool_calls attribute. -/
theorem router_partiality :
    should_continue ⟨[]⟩ = .error .emptyMessages ∧
    (∀ (s : MessagesState) (last : Message),
      s.messages.getLast? = some last → last.tool_calls = none →
      should_continue s = .error .missingToolCallsAttr) ∧
    (∀ (s : MessagesState) (last : Message) (tcs : List ToolCall),
      s.messages.getLast? = some last → last.tool_calls = some tcs →
      ∃ r, should_continue s = .ok r) := by
  refine ⟨rfl, ?_, ?_⟩
  · intro s last h1 h2
    simp [should_continue, h1, h2]
  · intro s last tcs h1 h2
    cases he : tcs.isEmpty <;> simp [should_continue, h1, h2, he]

/-- C9 witness: the three regimes at concrete states: the empty state
fails, a state ending in a user message fails, and a state ending in an
assistant message succeeds. -/
theorem router_partiality_witness :
    should_continue ⟨[]⟩ = .error .emptyMessages ∧
    should_continue ⟨[userMsgEx]⟩ = .error .missingToolCallsAttr ∧
    ∃ r, should_continue ⟨[userMsgEx, aiMsgNoCall]⟩ = .ok r :=
  ⟨router_partiality.1,
   router_partiality.2.1 ⟨[userMsgEx]⟩ userMsgEx rfl rfl,
   router_partiality.2.2 ⟨[userMsgEx, aiMsgNoCall]⟩ aiMsgNoCall [] rfl rfl⟩

/-- C3 counterexample: on a concrete history and a tool call with the
unregistered name get_weather and a parsing payload, the dispatch loop
of the OpenAI notebook returns the history unchanged: no ToolResult (and
in particular no error-describing message) is appended for the call — it
is silently dropped, refuting the claim that an error ToolResult is
appended to the history. -/
theorem unknown_tool_dropped_cex :
    dispatch_tool_calls parseOkEx availEx [] [tcUnknown] = .ok [] := rfl

/-- C3 amended: for every tool call whose name is not registered in
available_functions (and whose payload parses), the dispatch step
silently skips the call — it appends no message for it and does not
abort — and the loop proceeds with the remaining calls. -/
theorem unknown_tool_skipped
    (json_loads : String → Except String OAArgs)
    (afs : List (String × (OAArgs → String)))
    (msgs : List OAMessage) (tc : OAToolCall) (rest : List OAToolCall)
    (args : OAArgs)
    (hparse : json_loads tc.function.arguments = .ok args)
    (hmiss : afs.find? (fun p => p.1 == tc.function.name) = none) :
    dispatch_tool_calls json_loads afs msgs (tc :: rest) =
      dispatch_tool_calls json_loads afs msgs rest := by
  conv_lhs => unfold dispatch_tool_calls
  rw [hparse]
  simp only []
  rw [hmiss]

/-- C3 amended witness: the concrete unknown call is skipped, leaving
the dispatch of the remaining (empty) call list. -/
theorem unknown_tool_skipped_witness :
    dispatch_tool_calls parseOkEx availEx [] [tcUnknown] =
      dispatch_tool_calls parseOkEx availEx [] [] :=
  unknown_tool_skipped parseOkEx availEx [] tcUnknown [] [] rfl rfl

/-- C4 counterexample: on a concrete tool call whose payload fails to
parse, the dispatch loop of the OpenAI notebook aborts with the
uncaught json.loads exception and appends no ToolResult, refuting the
claim that a MalformedArguments ToolResult is produced and the run does
not abort. -/
theorem malformed_args_abort_cex :
    dispatch_tool_calls parseFailEx availEx [] [tcMalformed] =
      .error (.jsonDecodeError "Expecting value: line 1 column 1 (char 0)") :=
  rfl

/-- C4 amended: for every tool call whose argument payload fails to
parse, the dispatch step aborts with the propagated parse error (no
ToolResult is appended and the remaining calls are not dispatched). -/
theorem malformed_args_abort
    (json_loads : String → Except String OAArgs)
    (afs : List (String × (OAArgs → String)))
    (msgs : List OAMessage) (tc : OAToolCall) (rest : List OAToolCall)
    (e : String)
    (hparse : json_loads tc.function.arguments = .error e) :
    dispatch_tool_calls json_loads afs msgs (tc :: rest) =
      .error (.jsonDecodeError e) := by
  unfold dispatch_tool_calls
  rw [hparse]

/-- C4 amended witness: the concrete malformed call aborts the dispatch
with the parse error. -/
theorem malformed_args_abort_witness :
    dispatch_tool_calls parseFailEx availEx [] [tcMalformed] =
      .error (.jsonDecodeError "Expecting value: line 1 column 1 (char 0)") :=
  malformed_args_abort parseFailEx availEx [] tcMalformed []
    "Expecting value: line 1 column 1 (char 0)" rfl

/-- C8: on the opentrons_config.json deck configuration recorded in the
notebook, the generated source contains the line-initial assignment
target 1_labware, derived from the numeric slot key "1", and 1_labware
is not a valid Python identifier. -/
theorem templater_invalid_identifier_target :
    (initialize_deck opentronsConfig).map
      (fun out => strContains out "\n    1_labware = protocol.load_labware(")
      = .ok true ∧
    isValidPythonIdent "1_labware" = false :=
  ⟨rfl, by decide⟩

/-- A completion event for index j exists in the dispatch trace whenever
j finished, and it records f j. -/
theorem lookupIdx_dispatchEvents (f : Nat → Message) (ord : List Nat)
    (j : Nat) (h : j ∈ ord) :
    lookupIdx j (dispatchEvents f ord) = some (f j) := by
  induction ord with
  | nil => cases h
  | cons i rest ih =>
    by_cases hij : i = j
    · subst hij
      simp only [dispatchEvents, List.map_cons, lookupIdx]
      rw [List.find?_cons_of_pos _ (by simp)]
      rfl
    · have hj : j ∈ rest := by
        rcases List.mem_cons.mp h with h1 | h2
        · exact absurd h1.symm hij
        · exact h2
      simp only [dispatchEvents, List.map_cons, lookupIdx]
      rw [List.find?_cons_of_neg _ (by simp [hij])]
      exact ih hj

/-- Collecting a map of pointwise-defined optional results succeeds with
the pointwise values. -/
theorem collectSome_map (g : Nat → Option Message) (f : Nat → Message)
    (l : List Nat) (h : ∀ x ∈ l, g x = some (f x)) :
    collectSome (l.map g) = some (l.map f) := by
  induction l with
  | nil => rfl
  | cons a l ih =>
    have ha := h a (List.mem_cons_self a l)
    simp only [List.map_cons, ha, collectSome]
    rw [ih (fun x hx => h x (List.mem_cons_of_mem a hx))]
    rfl

/-- Mapping over the index range with in-range getD is mapping over the
list itself. -/
theorem range_map_getD (g : ToolCall → Message) (tcs : List ToolCall) :
    (List.range tcs.length).map (fun i => g (tcs.getD i tcDefault)) =
      tcs.map g := by
  induction tcs with
  | nil => rfl
  | cons a l ih =>
    simp only [List.length_cons, List.range_succ_eq_map, List.map_cons,
      List.map_map, Function.comp_def, List.getD_cons_zero, List.getD_cons_succ]
    rw [ih]

/-- Every result of execToolCall is a tool message carrying the
originating call's id. -/
theorem execToolCall_shape (registry : List (String × (String → String)))
    (tc : ToolCall) :
    (execToolCall registry tc).role = Role.tool ∧
    (execToolCall registry tc).tool_call_id = some tc.id := by
  unfold execToolCall
  cases registry.find? (fun p => p.1 == tc.name) <;> simp

/-- C2: when the last message of the state is an assistant message with
n ToolCalls, the Tool Node appends exactly n ToolResult messages, in the
original ToolCall order, for every physical completion order ord that
covers all n calls; the scheduled run agrees with the canonical in-order
one. -/
theorem tool_node_appends_in_order
    (registry : List (String × (String → String))) (s : MessagesState)
    (last : Message) (tcs : List ToolCall) (n : Nat) (ord : List Nat)
    (hlast : s.messages.getLast? = some last)
    (hrole : last.role = Role.assistant)
    (hattr : last.tool_calls = some tcs)
    (hn : tcs.length = n) (hpos : 0 < n)
    (hcover : ∀ j, j < n → j ∈ ord) :
    ∃ out, toolNodeSched registry s ord = .ok out ∧
      tool_node registry s = .ok out ∧
      out = tcs.map (execToolCall registry) ∧
      out.length = n ∧
      (∀ i, i < n →
        (out.getD i msgDefault).role = Role.tool ∧
        (out.getD i msgDefault).tool_call_id =
          some ((tcs.getD i tcDefault).id)) := by
  subst hn
  have hne : tcs.isEmpty = false := by
    cases tcs with
    | nil => exact absurd hpos (by simp)
    | cons a l => rfl
  have hre : reassemble tcs.length
      (dispatchEvents
        (fun i => execToolCall registry (tcs.getD i tcDefault)) ord) =
      some (tcs.map (execToolCall registry)) := by
    unfold reassemble
    rw [collectSome_map _ (fun i => execToolCall registry (tcs.getD i tcDefault))]
    · rw [range_map_getD]
    · intro x hx
      exact lookupIdx_dispatchEvents _ ord x (hcover x (List.mem_range.mp hx))
  refine ⟨tcs.map (execToolCall registry), ?_, ?_, rfl, by simp, ?_⟩
  · simp only [toolNodeSched, hlast, hattr, hne]
    rw [hre]
    simp
  · simp only [tool_node, hlast, hattr, hne]
    simp
  · intro i hi
    have hgd : (tcs.map (execToolCall registry)).getD i msgDefault =
        execToolCall registry (tcs.getD i tcDefault) := by
      rw [List.getD_eq_getElem _ _ (by simpa using hi),
        List.getD_eq_getElem _ _ hi, List.getElem_map]
    rw [hgd]
    exact execToolCall_shape registry (tcs.getD i tcDefault)

/-- C2 witness: a concrete state with two tool calls, dispatched in the
reversed physical completion order [1, 0], still yields the two tool
results in the original call order. -/
theorem tool_node_appends_in_order_witness :
    ∃ out, toolNodeSched regEx ⟨[userMsgEx, aiMsgTwoCalls]⟩ [1, 0] = .ok out ∧
      tool_node regEx ⟨[userMsgEx, aiMsgTwoCalls]⟩ = .ok out ∧
      out = [tcEx, tcEx2].map (execToolCall regEx) ∧
      out.length = 2 ∧
      (∀ i, i < 2 →
        (out.getD i msgDefault).role = Role.tool ∧
        (out.getD i msgDefault).tool_call_id =
          some (([tcEx, tcEx2].getD i tcDefault).id)) :=
  tool_node_appends_in_order regEx ⟨[userMsgEx, aiMsgTwoCalls]⟩
    aiMsgTwoCalls [tcEx, tcEx2] 2 [1, 0] rfl rfl rfl rfl (by decide)
    (by decide)

/-- A successful Tool Node step never returns an empty result list (the
step only succeeds when the last message carries at least one ToolCall,
and every call yields a result). -/
theorem tool_node_ok_ne_nil (registry : List (String × (String → String)))
    (s : MessagesState) (out : List Message)
    (h : tool_node registry s = .ok out) : out ≠ [] := by
  unfold tool_node at h
  cases hl : s.messages.getLast? with
  | none => rw [hl] at h; simp only [] at h; cases h
  | some last =>
    rw [hl] at h
    simp only [] at h
    cases ha : last.tool_calls with
    | none => rw [ha] at h; simp only [] at h; cases h
    | some tcs =>
      rw [ha] at h
      simp only [] at h
      cases tcs with
      | nil => simp at h
      | cons a l =>
        simp only [List.isEmpty_cons, Bool.false_eq_true, if_false,
          Except.ok.injEq] at h
        subst h
        simp

/-- C6: one executor step only appends: whenever a step succeeds, the
message list before it is a strict prefix of the message list after it
(the appended suffix is non-empty); nothing is reordered, mutated, or
truncated. -/
theorem step_appends_strictly (model : List Message → Message)
    (registry : List (String × (String → String))) (node : GNode)
    (msgs out : List Message) (next : StepNext)
    (h : stepOnce model registry node msgs = .ok (next, out)) :
    ∃ t, out = msgs ++ t ∧ t ≠ [] := by
  cases node with
  | agent =>
    unfold stepOnce at h
    simp only [] at h
    cases hr : should_continue ⟨msgs ++ call_model model ⟨msgs⟩⟩ with
    | error e => rw [hr] at h; simp only [] at h; cases h
    | ok r =>
      rw [hr] at h
      cases r with
      | terminal =>
        simp only [] at h
        simp only [Except.ok.injEq, Prod.mk.injEq] at h
        exact ⟨call_model model ⟨msgs⟩, h.2.symm, by simp [call_model]⟩
      | toNode id =>
        simp only [] at h
        by_cases hid : (id == "tools") = true
        · rw [if_pos hid] at h
          simp only [Except.ok.injEq, Prod.mk.injEq] at h
          exact ⟨call_model model ⟨msgs⟩, h.2.symm, by simp [call_model]⟩
        · rw [if_neg hid] at h; cases h
  | tools =>
    unfold stepOnce at h
    simp only [] at h
    cases ht : tool_node registry ⟨msgs⟩ with
    | error e => rw [ht] at h; simp only [] at h; cases h
    | ok results =>
      rw [ht] at h
      simp only [] at h
      simp only [Except.ok.injEq, Prod.mk.injEq] at h
      exact ⟨results, h.2.symm, tool_node_ok_ne_nil registry ⟨msgs⟩ results ht⟩

/-- C6 witness: a concrete agent step extends the one-message history by
a non-empty suffix. -/
theorem step_appends_strictly_witness :
    ∃ t, [userMsgEx, aiMsgNoCall] = [userMsgEx] ++ t ∧ t ≠ [] :=
  step_appends_strictly (fun _ => aiMsgNoCall) regEx .agent [userMsgEx]
    [userMsgEx, aiMsgNoCall] .halt rfl

/-- C7: scenario A: on a fresh thread (no checkpoint), a run started
from one user message whose model reply carries zero ToolCalls halts via
the Router after exactly one step, with the final state holding exactly
the user message followed by the assistant message. -/
theorem fresh_thread_single_step (model : List Message → Message)
    (registry : List (String × (String → String)))
    (store : List (String × MessagesState)) (u reply : Message) (cap : Nat)
    (hfresh : getCk store "t1" = none)
    (huser : u.role = Role.user)
    (hreply : model [u] = reply)
    (hrole : reply.role = Role.assistant)
    (hnocalls : reply.tool_calls = some [])
    (hcap : 0 < cap) :
    start_or_resume model registry store "t1" u cap = .ok ([u, reply], 1) := by
  obtain ⟨c, rfl⟩ : ∃ c, cap = c + 1 :=
    ⟨cap - 1, (Nat.succ_pred_eq_of_pos hcap).symm⟩
  unfold start_or_resume
  rw [hfresh]
  unfold runLoop stepOnce
  simp [call_model, should_continue, hreply, hnocalls]

/-- C7 witness: a concrete fresh run with a direct-answer model reaches
the terminal state in one step with the two-message history. -/
theorem fresh_thread_single_step_witness :
    start_or_resume (fun _ => aiMsgNoCall) regEx [] "t1" userMsgEx 10 =
      .ok ([userMsgEx, aiMsgNoCall], 1) :=
  fresh_thread_single_step (fun _ => aiMsgNoCall) regEx [] userMsgEx
    aiMsgNoCall 10 rfl rfl rfl rfl rfl (by decide)

/-- Every exception escaping the tip_racks comprehension is a KeyError
(missing labware section or missing rack slot). -/
theorem tipRackCode_error_shape (lwOpt : Option (List (String × Labware)))
    (racks : List String) (e : PyErr)
    (h : tipRackCode lwOpt racks = .error e) : ∃ k, e = PyErr.keyError k := by
  induction racks with
  | nil => cases h
  | cons r rs ih =>
    unfold tipRackCode at h
    cases lwOpt with
    | none =>
      simp only [] at h
      cases h
      exact ⟨"labware", rfl⟩
    | some lwDict =>
      simp only [] at h
      cases hd : dictGet lwDict r with
      | none =>
        rw [hd] at h
        simp only [] at h
        cases h
        exact ⟨r, rfl⟩
      | some lw =>
        rw [hd] at h
        simp only [] at h
        cases ht : tipRackCode (some lwDict) rs with
        | error e2 =>
          rw [ht] at h
          simp only [] at h
          cases h
          exact ih ht
        | ok tail =>
          rw [ht] at h
          simp only [] at h
          cases h

/-- Every exception escaping the pipette loop is a KeyError. -/
theorem pipetteCode_error_shape (lwOpt : Option (List (String × Labware)))
    (pips : List (String × Pipette)) (e : PyErr)
    (h : pipetteCode lwOpt pips = .error e) : ∃ k, e = PyErr.keyError k := by
  induction pips with
  | nil => cases h
  | cons hd rest ih =>
    obtain ⟨mount, p⟩ := hd
    unfold pipetteCode at h
    cases ht : tipRackCode lwOpt p.tip_racks with
    | error e2 =>
      rw [ht] at h
      simp only [] at h
      cases h
      exact tipRackCode_error_shape lwOpt p.tip_racks e ht
    | ok lines =>
      rw [ht] at h
      simp only [] at h
      cases hr : pipetteCode lwOpt rest with
      | error e2 =>
        rw [hr] at h
        simp only [] at h
        cases h
        exact ih hr
      | ok tail =>
        rw [hr] at h
        simp only [] at h
        cases h

/-- With the labware section absent, the only exception the tip_racks
comprehension can raise is KeyError "labware". -/
theorem tipRackCode_none_error (racks : List String) (e : PyErr)
    (h : tipRackCode none racks = .error e) : e = .keyError "labware" := by
  cases racks with
  | nil => cases h
  | cons r rs =>
    simp only [tipRackCode] at h
    cases h
    rfl

/-- With the labware section absent, the only exception the pipette loop
can raise is KeyError "labware". -/
theorem pipetteCode_none_error (pips : List (String × Pipette)) (e : PyErr)
    (h : pipetteCode none pips = .error e) : e = .keyError "labware" := by
  induction pips with
  | nil => cases h
  | cons hd rest ih =>
    obtain ⟨mount, p⟩ := hd
    unfold pipetteCode at h
    cases ht : tipRackCode none p.tip_racks with
    | error e2 =>
      rw [ht] at h
      simp only [] at h
      cases h
      exact tipRackCode_none_error p.tip_racks e ht
    | ok lines =>
      rw [ht] at h
      simp only [] at h
      cases hr : pipetteCode none rest with
      | error e2 =>
        rw [hr] at h
        simp only [] at h
        cases h
        exact ih hr
      | ok tail =>
        rw [hr] at h
        simp only [] at h
        cases h

/-- With the labware section absent, the pipette loop either completes
(no rack was iterated) or raises KeyError "labware". -/
theorem pipetteCode_none_labware (pips : List (String × Pipette)) :
    (∃ l, pipetteCode none pips = .ok l) ∨
      pipetteCode none pips = .error (.keyError "labware") := by
  cases hres : pipetteCode none pips with
  | ok l => exact Or.inl ⟨l, rfl⟩
  | error e =>
    have he := pipetteCode_none_error pips e hres
    subst he
    exact Or.inr rfl

/-- A rack slot missing from the labware mapping makes the tip_racks
comprehension raise a KeyError. -/
theorem tipRackCode_missing_rack (lwDict : List (String × Labware))
    (racks : List String) (rack : String)
    (hmem : rack ∈ racks) (hmiss : dictGet lwDict rack = none) :
    ∃ k, tipRackCode (some lwDict) racks = .error (.keyError k) := by
  induction racks with
  | nil => cases hmem
  | cons r rs ih =>
    cases hd : dictGet lwDict r with
    | none => exact ⟨r, by simp [tipRackCode, hd]⟩
    | some lw =>
      have hr : rack ∈ rs := by
        rcases List.mem_cons.mp hmem with h1 | h2
        · subst h1; rw [hmiss] at hd; cases hd
        · exact h2
      obtain ⟨k, hk⟩ := ih hr
      exact ⟨k, by simp [tipRackCode, hd, hk]⟩

/-- A pipette whose tip_racks mention a slot missing from the labware
mapping makes the pipette loop raise a KeyError. -/
theorem pipetteCode_missing_rack (lwDict : List (String × Labware))
    (pips : List (String × Pipette)) (mount : String) (p : Pipette)
    (rack : String) (hp : (mount, p) ∈ pips) (hr : rack ∈ p.tip_racks)
    (hmiss : dictGet lwDict rack = none) :
    ∃ k, pipetteCode (some lwDict) pips = .error (.keyError k) := by
  induction pips with
  | nil => cases hp
  | cons hd rest ih =>
    obtain ⟨m0, p0⟩ := hd
    cases ht : tipRackCode (some lwDict) p0.tip_racks with
    | error e =>
      obtain ⟨k, hk⟩ := tipRackCode_error_shape (some lwDict) p0.tip_racks e ht
      subst hk
      exact ⟨k, by simp [pipetteCode, ht]⟩
    | ok lines =>
      rcases List.mem_cons.mp hp with h1 | h2
      · obtain ⟨k, hk⟩ := tipRackCode_missing_rack lwDict p.tip_racks rack hr hmiss
        have : p = p0 := congrArg Prod.snd h1
        rw [this] at hk
        rw [hk] at ht
        cases ht
      · obtain ⟨k, hk⟩ := ih h2
        exact ⟨k, by simp [pipetteCode, ht, hk]⟩

/-- A module-loop exception pinpoints a module entry with an empty
location list. -/
theorem moduleCode_error_empty (mods : List (String × ModuleInfo))
    (e : PyErr) (h : moduleCode mods = .error e) :
    ∃ pr ∈ mods, (pr.2).location = [] := by
  induction mods with
  | nil => cases h
  | cons hd rest ih =>
    obtain ⟨nm, mi⟩ := hd
    unfold moduleCode at h
    cases hloc : mi.location.head? with
    | none =>
      refine ⟨(nm, mi), List.mem_cons_self _ _, ?_⟩
      simpa using hloc
    | some l0 =>
      rw [hloc] at h
      simp only [] at h
      cases hrec : moduleCode rest with
      | error e2 =>
        rw [hrec] at h
        simp only [] at h
        cases h
        obtain ⟨pr, hpr, hempty⟩ := ih hrec
        exact ⟨pr, List.mem_cons_of_mem _ hpr, hempty⟩
      | ok tail =>
        rw [hrec] at h
        simp only [] at h
        cases h

/-- Module entries with non-empty location lists make the module loop
succeed. -/
theorem moduleCode_ok (mods : List (String × ModuleInfo))
    (h : ∀ pr ∈ mods, (pr.2).location ≠ []) :
    ∃ lines, moduleCode mods = .ok lines := by
  cases hres : moduleCode mods with
  | ok lines => exact ⟨lines, rfl⟩
  | error e =>
    obtain ⟨pr, hpr, hempty⟩ := moduleCode_error_empty mods e hres
    exact absurd hempty (h pr hpr)

/-- C5: checkpoint store round-trip: put followed by get returns the
stored state, put overwrites the previous snapshot of the thread, and
get on an unknown thread id yields the NotFound signal (none). -/
theorem checkpoint_store_roundtrip :
    (∀ (store : List (String × MessagesState)) (t : String)
        (s : MessagesState), getCk (putCk store t s) t = some s) ∧
    (∀ (store : List (String × MessagesState)) (t : String)
        (s1 s2 : MessagesState),
      getCk (putCk (putCk store t s1) t s2) t = some s2) ∧
    (∀ (store : List (String × MessagesState)) (t : String),
      (∀ p ∈ store, p.1 ≠ t) → getCk store t = none) := by
  refine ⟨?_, ?_, ?_⟩
  · intro store t s
    simp [getCk, putCk]
  · intro store t s1 s2
    simp [getCk, putCk]
  · intro store t h
    unfold getCk
    rw [List.find?_eq_none.mpr]
    · rfl
    · intro p hp
      simpa using h p hp

/-- C5 witness: round-trip, overwrite, and NotFound at concrete thread
ids and states. -/
theorem checkpoint_store_roundtrip_witness :
    getCk (putCk [] "t1" ⟨[userMsgEx]⟩) "t1" = some ⟨[userMsgEx]⟩ ∧
    getCk (putCk (putCk [] "t1" ⟨[userMsgEx]⟩) "t1" ⟨[]⟩) "t1" = some ⟨[]⟩ ∧
    getCk ([] : List (String × MessagesState)) "t1" = none :=
  ⟨checkpoint_store_roundtrip.1 [] "t1" ⟨[userMsgEx]⟩,
   checkpoint_store_roundtrip.2.1 [] "t1" ⟨[userMsgEx]⟩ ⟨[]⟩,
   checkpoint_store_roundtrip.2.2 [] "t1" (by simp)⟩

/-- C10 counterexample: a configuration missing the labware section
whose module entry has an empty location list raises IndexError, not a
KeyError, refuting the claim that every configuration missing labware
raises a KeyError. -/
theorem initialize_deck_keyerror_cex :
    initialize_deck badModulesCfg = .error PyErr.indexError ∧
    ∀ k, initialize_deck badModulesCfg ≠ .error (PyErr.keyError k) := by
  constructor
  · rfl
  · intro k h
    rw [show initialize_deck badModulesCfg = .error PyErr.indexError from rfl]
      at h
    simp at h

/-- C10 (amended): initialize_deck treats a missing modules section as
the empty dict; it raises a KeyError for every configuration missing
api_version or pipettes; it raises a KeyError for every configuration
missing labware in which every module entry has a non-empty location
list (an empty location raises IndexError first); and it raises a
KeyError for every configuration in which some pipette's tip_racks
entry names a slot absent from the labware mapping. -/
theorem initialize_deck_error_behavior :
    (∀ cfg : DeckCfg,
      initialize_deck { cfg with modules := none } =
        initialize_deck { cfg with modules := some [] }) ∧
    (∀ cfg : DeckCfg, cfg.api_version = none ∨ cfg.pipettes = none →
      ∃ k, initialize_deck cfg = .error (.keyError k)) ∧
    (∀ cfg : DeckCfg, cfg.labware = none →
      (∀ pr ∈ cfg.modules.getD [], (pr.2).location ≠ []) →
      ∃ k, initialize_deck cfg = .error (.keyError k)) ∧
    (∀ (cfg : DeckCfg) (pips : List (String × Pipette))
        (lwDict : List (String × Labware)) (mount : String) (p : Pipette)
        (rack : String),
      cfg.pipettes = some pips → cfg.labware = some lwDict →
      (mount, p) ∈ pips → rack ∈ p.tip_racks → dictGet lwDict rack = none →
      ∃ k, initialize_deck cfg = .error (.keyError k)) := by
  refine ⟨?_, ?_, ?_, ?_⟩
  · rintro ⟨a, p, m, l⟩
    rfl
  · rintro ⟨a, p, m, l⟩ (h | h)
    · simp only [] at h
      subst h
      exact ⟨"api_version", rfl⟩
    · simp only [] at h
      subst h
      cases a with
      | none => exact ⟨"api_version", rfl⟩
      | some v => exact ⟨"pipettes", rfl⟩
  · rintro ⟨a, p, m, l⟩ hl hmods
    simp only [] at hl
    subst hl
    cases a with
    | none => exact ⟨"api_version", rfl⟩
    | some v =>
      cases p with
      | none => exact ⟨"pipettes", rfl⟩
      | some pips =>
        rcases pipetteCode_none_labware pips with ⟨pl, hpl⟩ | hpl
        · obtain ⟨mlines, hml⟩ := moduleCode_ok (m.getD []) hmods
          refine ⟨"labware", ?_⟩
          unfold initialize_deck
          simp only []
          rw [hpl]
          simp only []
          rw [hml]
        · refine ⟨"labware", ?_⟩
          unfold initialize_deck
          simp only []
          rw [hpl]
  · rintro ⟨a, p, m, l⟩ pips lwDict mount pp rack hp hl hpmem hrmem hmiss
    simp only [] at hp hl
    subst hp
    subst hl
    cases a with
    | none => exact ⟨"api_version", rfl⟩
    | some v =>
      obtain ⟨k, hk⟩ :=
        pipetteCode_missing_rack lwDict pips mount pp rack hpmem hrmem hmiss
      refine ⟨k, ?_⟩
      unfold initialize_deck
      simp only []
      rw [hk]

/-- C10 amended witness: the four regimes at concrete configurations:
missing modules equals empty modules, missing api_version raises a
KeyError, missing labware (with a well-located module) raises a
KeyError, and a tip rack naming the absent slot "9" raises a KeyError. -/
theorem initialize_deck_error_behavior_witness :
    initialize_deck { opentronsConfig with modules := none } =
      initialize_deck { opentronsConfig with modules := some [] } ∧
    (∃ k, initialize_deck { opentronsConfig with api_version := none } =
      .error (.keyError k)) ∧
    (∃ k, initialize_deck { opentronsConfig with labware := none } =
      .error (.keyError k)) ∧
    (∃ k, initialize_deck badRackCfg = .error (.keyError k)) :=
  ⟨initialize_deck_error_behavior.1 opentronsConfig,
   initialize_deck_error_behavior.2.1 _ (Or.inl rfl),
   initialize_deck_error_behavior.2.2.1 _ rfl (by decide),
   initialize_deck_error_behavior.2.2.2 badRackCfg [("left", badPipette)]
     (opentronsConfig.labware.getD []) "left" badPipette "9" rfl rfl
     (by simp) (by simp [badPipette]) rfl⟩

end ILab
